import Mathlib

/-!
Verification of the pgde row-to-record conversion layer.

The development shallowly embeds the two crates:

* `pgde_derive` (`src/pgde_derive/src/lib.rs`): the derive macro
  `parse_field_setters` that, for a struct with named fields, emits a
  `from_row` implementation performing positional field extraction with
  default substitution and diagnostic accumulation on failure;
* `pgde` (`src/src/lib.rs`): the `RowConsumer` trait with `from_rows`,
  `consume` and `consume_json` built on `from_row`, the `ConsumeError`
  enum, and the `pg_type_implementation` / `pg_type_expr_implementation`
  macros that provide standalone `from_row` implementations.

Field values are modelled by an arbitrary type `V`; a row is the list of
its cells' decode outcomes, where `some v` is a successful typed
extraction and `none` any driver-level extraction failure.  A record of a
derived struct is its list of field values in declaration order.
-/

namespace Pgde

/-- Models `row.try_get::<usize, T>(i)` of the tokio_postgres row type:
the extraction fails (`none`) when position `i` is out of range or the
cell at position `i` itself failed to decode as the requested type. -/
def try_get {V : Type} (row : List (Option V)) (i : Nat) : Option V :=
  (row[i]?).join

/-- A field descriptor of a derived struct: the field's identifier and the
declared field type's default value, the value of the generated
`#field_type::default()` call. -/
structure Field (V : Type) where
  name : String
  default : V

/-- The diagnostic string pushed by a generated field setter on extraction
failure; it names both the field and the record type. -/
def field_error_msg (field_name class_name : String) : String :=
  "Conversion error occurred for field \"" ++ field_name ++
    "\" on class \"" ++ class_name ++ "\""

/-- Models the sequence of field setters emitted by `parse_field_setters`:
field number `i` in declaration order is set from `row.try_get(i)`; on
success the extracted value is used, on failure the declared type's
default is used and a diagnostic is pushed onto `errors`.  Returns the
record's field values in declaration order together with the accumulated
diagnostics, also in declaration order. -/
def field_setters {V : Type} (class_name : String) :
    List (Field V) → Nat → List (Option V) → List V × List String
  | [], _, _ => ([], [])
  | f :: fs, i, row =>
    let rest := field_setters class_name fs (i + 1) row
    match try_get row i with
    | some v => (v :: rest.1, rest.2)
    | none => (f.default :: rest.1, field_error_msg f.name class_name :: rest.2)

/-- Models the `from_row` implementation emitted by the derive macro for a
struct with named fields: run all field setters, then return `Ok` exactly
when the `errors` vector stayed empty, and `Err` of the (still fully
populated) record together with the diagnostics otherwise. -/
def from_row {V : Type} (class_name : String) (fields : List (Field V))
    (row : List (Option V)) : Except (List V × List String) (List V) :=
  let built := field_setters class_name fields 0 row
  match built.2.length with
  | 0 => Except.ok built.1
  | _ + 1 => Except.error (built.1, built.2)

/-- The record carried by a conversion outcome: both branches of the
generated `from_row` carry a complete record value. -/
def outcome_record {V : Type} : Except (List V × List String) (List V) → List V
  | Except.ok r => r
  | Except.error p => p.1

/-- The diagnostics carried by a conversion outcome; the `Ok` branch
carries none. -/
def outcome_errors {V : Type} : Except (List V × List String) (List V) → List String
  | Except.ok _ => []
  | Except.error p => p.2

/-!
The batch and query layer of `src/src/lib.rs`.  The trait methods
`from_rows`, `consume` and `consume_json` are generic over the
implementing type and only call its `from_row`; they are embedded as
functions parameterised by an arbitrary row type `ρ`, record type `σ`,
and the `from_row` implementation itself.
-/

/-- The record carried by a `from_row` result of the trait's shape
`Result Self (Self × Vec String)`: both branches carry a record. -/
def recOf {σ : Type} : Except (σ × List String) σ → σ
  | Except.ok v => v
  | Except.error p => p.1

/-- Whether a `from_row` result is the `Ok` branch, i.e. the row
converted with no diagnostics. -/
def isClean {σ : Type} : Except (σ × List String) σ → Bool
  | Except.ok _ => true
  | Except.error _ => false

/-- Models the loop body of `RowConsumer::from_rows`: fold over the rows
in input order, pushing the converted record of every row (also of rows
that converted with diagnostics) and raising the `has_issue` flag on any
`Err`. -/
def from_rows_loop {ρ σ : Type} (fr : ρ → Except (σ × List String) σ) :
    List ρ → Bool → List σ → Bool × List σ
  | [], has_issue, data => (has_issue, data)
  | row :: rest, has_issue, data =>
    match fr row with
    | Except.ok v => from_rows_loop fr rest has_issue (data ++ [v])
    | Except.error p => from_rows_loop fr rest true (data ++ [p.1])

/-- Models `RowConsumer::from_rows`: run the loop with an initially clear
`has_issue` flag and empty data vector, then return `Ok data` when the
flag is still clear and `Err data` otherwise. -/
def from_rows {ρ σ : Type} (fr : ρ → Except (σ × List String) σ)
    (rows : List ρ) : Except (List σ) (List σ) :=
  match from_rows_loop fr rows false [] with
  | (false, data) => Except.ok data
  | (true, data) => Except.error data

/-- Models the `ConsumeError` enum of `src/src/lib.rs`. -/
inductive ConsumeError where
  | ConversionError : ConsumeError
  | DatabaseConnectionError : ConsumeError
deriving DecidableEq

/-- Models `RowConsumer::consume` after the one `await` point: the
driver's `conn.query(query, params).await` result is taken as an input of
type `Except ε (List ρ)`, where `ε` is the driver's opaque error type.
On query success the rows go through `from_rows`; a degraded batch is
collapsed to `ConsumeError.ConversionError`, discarding the records, and
a query failure to `ConsumeError.DatabaseConnectionError`, discarding the
driver error. -/
def consume {ε ρ σ : Type} (fr : ρ → Except (σ × List String) σ)
    (query_result : Except ε (List ρ)) : Except ConsumeError (List σ) :=
  match query_result with
  | Except.ok v =>
    match from_rows fr v with
    | Except.ok recs => Except.ok recs
    | Except.error _ => Except.error ConsumeError.ConversionError
  | Except.error _ => Except.error ConsumeError.DatabaseConnectionError

/-- Models `serde_json::Value::default().to_string()`, the generic
failure text of `consume_json`: the default JSON value is `Null` and its
textual form is the literal `null`. -/
def json_default_string : String := "null"

/-- Models `RowConsumer::consume_json`: serialization
(`serde_json::to_string`) is taken as a function into `Except τ String`
with `τ` the serializer's opaque error type.  Both a failing `consume`
and a failing serialization collapse to `Err` of the same
`json_default_string`. -/
def consume_json {ε ρ σ τ : Type} (fr : ρ → Except (σ × List String) σ)
    (to_string : List σ → Except τ String)
    (query_result : Except ε (List ρ)) : Except String String :=
  match consume fr query_result with
  | Except.ok v =>
    match to_string v with
    | Except.ok s => Except.ok s
    | Except.error _ => Except.error json_default_string
  | Except.error _ => Except.error json_default_string

/-!
The standalone implementations of `from_row` provided by the
`pg_type_implementation` and `pg_type_expr_implementation` macros of
`src/src/lib.rs`.  Both read the row's position `0`; they differ in the
value substituted on failure: the first macro substitutes
`<T>::default()`, the second substitutes the literal expression written
at its instantiation site.
-/

/-- The diagnostic string pushed by the standalone implementations on
extraction failure; it names the implementing type. -/
def class_error_msg (class_name : String) : String :=
  "Conversion error occurred for class \"" ++ class_name ++ "\""

/-- Models the `from_row` emitted by `pg_type_implementation` for one
type: extract position `0`; on failure push the diagnostic and use the
type's default value, then return by matching on the error count. -/
def pg_type_from_row {V : Type} (class_name : String) (default_value : V)
    (row : List (Option V)) : Except (V × List String) V :=
  let built : V × List String :=
    match try_get row 0 with
    | some v => (v, [])
    | none => (default_value, [class_error_msg class_name])
  match built.2.length with
  | 0 => Except.ok built.1
  | _ + 1 => Except.error (built.1, built.2)

/-- Models the `from_row` emitted by `pg_type_expr_implementation` for
one type: extract position `0`; on success return the value, on failure
push the diagnostic and return the hard-coded fallback expression written
at the macro's instantiation site. -/
def pg_type_expr_from_row {V : Type} (class_name : String) (fallback : V)
    (row : List (Option V)) : Except (V × List String) V :=
  match try_get row 0 with
  | some v => Except.ok v
  | none => Except.error (fallback, [class_error_msg class_name])

/-- Models `std::time::SystemTime` as an instant in nanoseconds since the
epoch. -/
abbrev SystemTime := Nat

/-- Models the instantiation
`pg_type_expr_implementation![SystemTime, SystemTime::now(), ..]`: the
fallback expression reads the wall clock at the moment of the failing
call, modelled by the parameter `now`. -/
def SystemTime_from_row (now : SystemTime)
    (row : List (Option SystemTime)) : Except (SystemTime × List String) SystemTime :=
  pg_type_expr_from_row "SystemTime" now row

/-- Models `std::net::IpAddr`, restricted to its v4 form, as the four
octets. -/
inductive IpAddr where
  | V4 : Nat → Nat → Nat → Nat → IpAddr
deriving DecidableEq

/-- Models the instantiation
`pg_type_expr_implementation![.., IpAddr, IpAddr::V4(Ipv4Addr::new(127, 0, 0, 1)), ..]`:
the fallback is the loopback address. -/
def IpAddr_from_row (row : List (Option IpAddr)) : Except (IpAddr × List String) IpAddr :=
  pg_type_expr_from_row "IpAddr" (IpAddr.V4 127 0 0 1) row

/-!
The shape dispatch of the derive macro `parse_field_setters` in
`src/pgde_derive/src/lib.rs`, over the `syn` shapes it matches on.  A
panic of the procedural macro (a build-time rejection, no implementation
emitted) is modelled as `Except.error` of the panic message.
-/

/-- Models `syn::Fields`: named fields, unnamed (tuple-style) fields, or
the fieldless unit shape.  The variant payloads the macro never reads are
omitted. -/
inductive Fields (V : Type) where
  | Named : List (Field V) → Fields V
  | Unnamed : Fields V
  | Unit : Fields V

/-- Models `syn::Data`: a struct, an enum, or a union.  The enum and
union payloads the macro never reads are omitted. -/
inductive Data (V : Type) where
  | Struct : Fields V → Data V
  | Enum : Data V
  | Union : Data V

/-- Models `parse_field_setters`: for a struct with named fields it emits
the `from_row` implementation built from the field setters; for every
other shape it panics with the corresponding message. -/
def parse_field_setters {V : Type} (class_name : String) (data : Data V) :
    Except String (List (Option V) → Except (List V × List String) (List V)) :=
  match data with
  | Data.Struct (Fields.Named fields) => Except.ok (from_row class_name fields)
  | Data.Struct Fields.Unnamed =>
    Except.error "RowConsumer is not supported on unit structs nor structs with unnamed fieds"
  | Data.Struct Fields.Unit =>
    Except.error "RowConsumer is not supported on unit structs nor structs with unnamed fieds"
  | Data.Enum => Except.error "RowConsumer is not supported on enums or unions"
  | Data.Union => Except.error "RowConsumer is not supported on enums or unions"

/-- Whether the derive macro emitted an implementation rather than
panicking. -/
def emits {α : Type} : Except String α → Bool
  | Except.ok _ => true
  | Except.error _ => false


/-- Shifting the starting index of the generated setters by `k` is the
same as dropping the first `k` row positions: setter number `j` reads
absolute row position `k + j`. -/
theorem field_setters_shift {V : Type} (c : String) :
    ∀ (fields : List (Field V)) (k : Nat) (row : List (Option V)),
      field_setters c fields k row = field_setters c fields 0 (row.drop k)
  | [], _, _ => rfl
  | f :: fs, k, row => by
    have h1 := field_setters_shift c fs (k + 1) row
    have h2 := field_setters_shift c fs 1 (row.drop k)
    have hg : try_get row k = try_get (row.drop k) 0 := by
      simp [try_get]
    simp only [field_setters, h1, h2, hg, List.drop_drop]

/-- When every extraction succeeds, the setters return exactly the
extracted values and no diagnostics. -/
theorem field_setters_all_ok {V : Type} (c : String) :
    ∀ (fields : List (Field V)) (vals : List V),
      vals.length = fields.length →
      field_setters c fields 0 (vals.map some) = (vals, [])
  | [], [], _ => rfl
  | [], _ :: _, h => by simp at h
  | _ :: _, [], h => by simp at h
  | f :: fs, v :: vs, h => by
    have hlen : vs.length = fs.length := by simpa using h
    have ih := field_setters_all_ok c fs vs hlen
    simp only [List.map_cons, field_setters, field_setters_shift c fs 1,
      List.drop_succ_cons, List.drop_zero, ih, try_get]
    simp

/-- Each field setter contributes exactly one value to the record,
whatever the row: the record always has one entry per declared field. -/
theorem field_setters_length {V : Type} (c : String) :
    ∀ (fields : List (Field V)) (k : Nat) (row : List (Option V)),
      (field_setters c fields k row).1.length = fields.length
  | [], _, _ => rfl
  | f :: fs, k, row => by
    have ih := field_setters_length c (f :: fs).tail (k + 1) row
    simp only [field_setters]
    cases try_get row k <;> simpa using ih

/-- When every extraction fails, the setters return the declared defaults
and one diagnostic per field, both in declaration order. -/
theorem field_setters_all_fail {V : Type} (c : String) :
    ∀ (fields : List (Field V)) (row : List (Option V)),
      (∀ j, j < fields.length → try_get row j = none) →
      field_setters c fields 0 row =
        (fields.map Field.default, fields.map fun f => field_error_msg f.name c)
  | [], _, _ => rfl
  | f :: fs, row, h => by
    have h0 : try_get row 0 = none := h 0 (by simp)
    have hrest : ∀ j, j < fs.length → try_get (row.drop 1) j = none := by
      intro j hj
      have := h (j + 1) (by simpa using Nat.succ_lt_succ hj)
      simpa [try_get, Nat.add_comm] using this
    have ih := field_setters_all_fail c fs (row.drop 1) hrest
    simp only [field_setters, field_setters_shift c fs 1, ih, h0, List.map_cons]

/-- When exactly field `i` fails and every other field extracts its value,
the setters return the extracted values with the default substituted at
position `i`, and the single diagnostic for field `i`. -/
theorem field_setters_single_fail {V : Type} (c : String) :
    ∀ (fields : List (Field V)) (vals : List V) (i : Nat),
      vals.length = fields.length → ∀ hi : i < fields.length,
      field_setters c fields 0 ((vals.map some).set i none) =
        (vals.set i (fields[i].default), [field_error_msg (fields[i]).name c])
  | [], _, i, _, hi => absurd hi (by simp)
  | _ :: _, [], _, hlen, _ => by simp at hlen
  | f :: fs, v :: vs, 0, hlen, _ => by
    have hlen' : vs.length = fs.length := by simpa using hlen
    have hok := field_setters_all_ok c fs vs hlen'
    simp only [List.map_cons, List.set_cons_zero, field_setters,
      field_setters_shift c fs 1, List.drop_succ_cons, List.drop_zero, hok, try_get]
    simp
  | f :: fs, v :: vs, i + 1, hlen, hi => by
    have hlen' : vs.length = fs.length := by simpa using hlen
    have hi' : i < fs.length := by simpa using hi
    have ih := field_setters_single_fail c fs vs i hlen' hi'
    simp only [List.map_cons, List.set_cons_succ, field_setters,
      field_setters_shift c fs 1, List.drop_succ_cons, List.drop_zero, ih, try_get]
    simp

/-- The two components of a generated conversion outcome are exactly the
two components returned by the field setters. -/
theorem from_row_parts {V : Type} (c : String) (fields : List (Field V))
    (row : List (Option V)) :
    outcome_record (from_row c fields row) = (field_setters c fields 0 row).1 ∧
      outcome_errors (from_row c fields row) = (field_setters c fields 0 row).2 := by
  unfold from_row
  cases h : (field_setters c fields 0 row).2 with
  | nil => simp [h, outcome_record, outcome_errors]
  | cons e es => simp [h, outcome_record, outcome_errors]

/-- The `from_rows` loop unfolded: the final flag is the initial flag
joined with whether any row converted with an `Err`, and the final data
vector appends, in input order, one record per row. -/
theorem from_rows_loop_eq {ρ σ : Type} (fr : ρ → Except (σ × List String) σ) :
    ∀ (rows : List ρ) (b : Bool) (data : List σ),
      from_rows_loop fr rows b data =
        (b || rows.any fun r => !(isClean (fr r)),
          data ++ rows.map fun r => recOf (fr r))
  | [], b, data => by simp [from_rows_loop]
  | r :: rs, b, data => by
    cases h : fr r with
    | ok v =>
      simp only [from_rows_loop, h]
      rw [from_rows_loop_eq fr rs b (data ++ [v])]
      simp [h, isClean, recOf]
    | error p =>
      simp only [from_rows_loop, h]
      rw [from_rows_loop_eq fr rs true (data ++ [p.1])]
      simp [h, isClean, recOf]

/-- Some row converted with an `Err` exactly when not all rows converted
cleanly. -/
theorem any_not_isClean_eq {ρ σ : Type} (fr : ρ → Except (σ × List String) σ)
    (rows : List ρ) :
    (rows.any fun r => !(isClean (fr r))) = !(rows.all fun r => isClean (fr r)) := by
  induction rows with
  | nil => rfl
  | cons r rs ih => cases hc : isClean (fr r) <;> simp [hc, ih]

/-- Characterisation of `from_rows`: it always returns the records of all
rows in input order, on the `Ok` side when every row converted cleanly
and on the `Err` side otherwise. -/
theorem from_rows_eq {ρ σ : Type} (fr : ρ → Except (σ × List String) σ)
    (rows : List ρ) :
    from_rows fr rows =
      if (rows.all fun r => isClean (fr r)) = true
      then Except.ok (rows.map fun r => recOf (fr r))
      else Except.error (rows.map fun r => recOf (fr r)) := by
  cases h : rows.all (fun r => isClean (fr r)) <;>
    simp [from_rows, from_rows_loop_eq fr rows false [], any_not_isClean_eq, h]

/-- C7: for every record type with n named fields, converting a row with
exactly n correctly-typed, non-null values yields the success outcome: a
fully-populated record built from the extracted values, with an empty
diagnostic list. -/
theorem from_row_all_fields_ok {V : Type} (class_name : String)
    (fields : List (Field V)) (vals : List V)
    (hlen : vals.length = fields.length) :
    from_row class_name fields (vals.map some) = Except.ok vals := by
  simp [from_row, field_setters_all_ok class_name fields vals hlen]

/-- Witness for C7 at a one-field record and the row with the single
value 7. -/
theorem from_row_all_fields_ok_witness :
    from_row "Foo" [(⟨"Id", 0⟩ : Field Nat)] ([7].map some) = Except.ok [7] :=
  from_row_all_fields_ok "Foo" [⟨"Id", 0⟩] [7] rfl

/-- C1: converting a row where extraction of field i fails and every
other field succeeds yields the error outcome whose record has field i
equal to that field type's default value and every other field equal to
its extracted value, and whose diagnostic list has exactly one entry
naming both field i and the record type. -/
theorem from_row_single_field_failure {V : Type} (class_name : String)
    (fields : List (Field V)) (vals : List V) (i : Nat)
    (hlen : vals.length = fields.length) (hi : i < fields.length) :
    from_row class_name fields ((vals.map some).set i none) =
      Except.error (vals.set i (fields[i].default),
        [field_error_msg (fields[i]).name class_name]) ∧
    ∃ pre mid post, field_error_msg (fields[i]).name class_name =
      pre ++ (fields[i]).name ++ mid ++ class_name ++ post := by
  constructor
  · simp [from_row, field_setters_single_fail class_name fields vals i hlen hi]
  · exact ⟨"Conversion error occurred for field \"", "\" on class \"", "\"", rfl⟩

/-- Witness for C1 at a one-field record whose single field fails. -/
theorem from_row_single_field_failure_witness :
    from_row "Foo" [(⟨"Id", 0⟩ : Field Nat)] [none] =
      Except.error ([0], [field_error_msg "Id" "Foo"]) ∧
    ∃ pre mid post, field_error_msg "Id" "Foo" = pre ++ "Id" ++ mid ++ "Foo" ++ post :=
  from_row_single_field_failure "Foo" [⟨"Id", 0⟩] [5] 0 rfl (by decide)

/-- C6: extraction is attempted for all n fields regardless of earlier
failures in the same row, and when every field fails extraction the
outcome carries exactly n diagnostics, one per field in declaration
order, with the record composed entirely of default values. -/
theorem from_row_attempts_every_field {V : Type} (class_name : String)
    (fields : List (Field V)) (row : List (Option V))
    (hfail : ∀ j, j < fields.length → try_get row j = none) :
    outcome_record (from_row class_name fields row) = fields.map Field.default ∧
    outcome_errors (from_row class_name fields row) =
      fields.map (fun f => field_error_msg f.name class_name) ∧
    ∀ row2 : List (Option V),
      (outcome_record (from_row class_name fields row2)).length = fields.length := by
  have hall := field_setters_all_fail class_name fields row hfail
  refine ⟨?_, ?_, ?_⟩
  · rw [(from_row_parts class_name fields row).1, hall]
  · rw [(from_row_parts class_name fields row).2, hall]
  · intro row2
    rw [(from_row_parts class_name fields row2).1]
    exact field_setters_length class_name fields 0 row2

/-- Witness for C6 at a one-field record and the empty row, on which the
single extraction is out of range and fails. -/
theorem from_row_attempts_every_field_witness :
    outcome_record (from_row "Foo" [(⟨"Id", 0⟩ : Field Nat)] []) = [0] ∧
    outcome_errors (from_row "Foo" [(⟨"Id", 0⟩ : Field Nat)] []) =
      [field_error_msg "Id" "Foo"] ∧
    ∀ row2 : List (Option Nat),
      (outcome_record (from_row "Foo" [(⟨"Id", 0⟩ : Field Nat)] row2)).length = 1 :=
  from_row_attempts_every_field "Foo" [⟨"Id", 0⟩] []
    (by
      intro j hj
      have hj0 : j = 0 := by simpa [Nat.lt_one_iff] using hj
      subst hj0
      decide)

/-- C2: `from_rows` converts each row in input order, returns one record
per input row preserving order and count in both outcomes, and is `Ok`
exactly when no row produced diagnostics and `Err` of the same sequence
otherwise. -/
theorem from_rows_order_and_classification {ρ σ : Type}
    (fr : ρ → Except (σ × List String) σ) (rows : List ρ) :
    from_rows fr rows =
      (if (rows.all fun r => isClean (fr r)) = true
       then Except.ok (rows.map fun r => recOf (fr r))
       else Except.error (rows.map fun r => recOf (fr r))) ∧
    (rows.map fun r => recOf (fr r)).length = rows.length :=
  ⟨from_rows_eq fr rows, by simp⟩

/-- C10: `from_rows` on an empty row sequence is the clean outcome with
an empty sequence. -/
theorem from_rows_empty_clean {ρ σ : Type} (fr : ρ → Except (σ × List String) σ) :
    from_rows fr [] = Except.ok ([] : List σ) := rfl

/-- C3: on query success, `consume` returns the converted records when
the batch is clean and the data-free `ConversionError` variant when the
batch is degraded; a degraded batch never yields records. -/
theorem consume_clean_vs_degraded {ε ρ σ : Type}
    (fr : ρ → Except (σ × List String) σ) (rows : List ρ) :
    consume fr (Except.ok rows : Except ε (List ρ)) =
      (if (rows.all fun r => isClean (fr r)) = true
       then Except.ok (rows.map fun r => recOf (fr r))
       else Except.error ConsumeError.ConversionError) := by
  cases h : rows.all (fun r => isClean (fr r)) <;>
    simp [consume, from_rows_eq fr rows, h]

/-- C5 counterexample: at a concrete degraded one-row batch and a
concrete query failure, `consume` returns two different failure
variants, so the two failure kinds are distinguishable, against the
claim that both paths return the same failure variant. -/
theorem consume_failure_kinds_distinguishable :
    consume (fun _ : Nat => Except.error ((0 : Nat), ["x"]))
        (Except.ok [7] : Except Unit (List Nat)) =
      Except.error ConsumeError.ConversionError ∧
    consume (fun _ : Nat => Except.error ((0 : Nat), ["x"]))
        (Except.error () : Except Unit (List Nat)) =
      Except.error ConsumeError.DatabaseConnectionError ∧
    ConsumeError.ConversionError ≠ ConsumeError.DatabaseConnectionError :=
  ⟨rfl, rfl, by decide⟩

/-- C5 amended: both failure paths of `consume` return the `Err` side of
the same detail-free two-variant `ConsumeError` enum, but with different
variants: a degraded batch yields `ConversionError` and a query execution
failure yields `DatabaseConnectionError`, so the two kinds are
distinguished by variant. -/
theorem consume_failure_kinds {ε ρ σ : Type}
    (fr : ρ → Except (σ × List String) σ) (rows : List ρ) (e : ε)
    (hdeg : (rows.all fun r => isClean (fr r)) = false) :
    consume fr (Except.ok rows : Except ε (List ρ)) =
      Except.error ConsumeError.ConversionError ∧
    consume fr (Except.error e : Except ε (List ρ)) =
      Except.error ConsumeError.DatabaseConnectionError ∧
    ConsumeError.ConversionError ≠ ConsumeError.DatabaseConnectionError := by
  refine ⟨?_, rfl, by decide⟩
  simp [consume, from_rows_eq fr rows, hdeg]

/-- Witness for the amended C5 at a concrete degraded batch and query
failure. -/
theorem consume_failure_kinds_witness :
    consume (fun _ : Nat => Except.error ((1 : Nat), ["y"]))
        (Except.ok [3] : Except Unit (List Nat)) =
      Except.error ConsumeError.ConversionError ∧
    consume (fun _ : Nat => Except.error ((1 : Nat), ["y"]))
        (Except.error () : Except Unit (List Nat)) =
      Except.error ConsumeError.DatabaseConnectionError ∧
    ConsumeError.ConversionError ≠ ConsumeError.DatabaseConnectionError :=
  consume_failure_kinds (fun _ : Nat => Except.error ((1 : Nat), ["y"])) [3] ()
    (by decide)

/-- C9: a failure of the underlying `consume` step and a failure of the
serialization step both make `consume_json` return the same generic
failure value `json_default_string`, with no distinction between the two
causes. -/
theorem consume_json_failures_collapse {ε ρ σ τ : Type}
    (fr : ρ → Except (σ × List String) σ) (to_string : List σ → Except τ String)
    (qr1 qr2 : Except ε (List ρ)) (e : ConsumeError) (v : List σ) (serr : τ)
    (h1 : consume fr qr1 = Except.error e)
    (h2 : consume fr qr2 = Except.ok v)
    (h3 : to_string v = Except.error serr) :
    consume_json fr to_string qr1 = Except.error json_default_string ∧
    consume_json fr to_string qr2 = Except.error json_default_string := by
  constructor
  · simp [consume_json, h1]
  · simp [consume_json, h2, h3]

/-- Witness for C9 at a concrete failing query and a concrete clean query
whose serialization fails. -/
theorem consume_json_failures_collapse_witness :
    consume_json (fun n : Nat => Except.ok n) (fun _ : List Nat => Except.error ())
        (Except.error () : Except Unit (List Nat)) =
      Except.error json_default_string ∧
    consume_json (fun n : Nat => Except.ok n) (fun _ : List Nat => Except.error ())
        (Except.ok [5] : Except Unit (List Nat)) =
      Except.error json_default_string :=
  consume_json_failures_collapse (fun n : Nat => Except.ok n)
    (fun _ : List Nat => Except.error ()) (Except.error ()) (Except.ok [5])
    ConsumeError.DatabaseConnectionError [5] () rfl rfl rfl

/-- C4 counterexample: on a failing extraction the `SystemTime`
implementation substitutes the wall-clock reading of the failing call, so
no single canonical default value is substituted: two calls with
different clock readings substitute different values. -/
theorem SystemTime_fallback_not_fixed :
    ¬ ∃ d : SystemTime, ∀ now : SystemTime,
        SystemTime_from_row now [none] =
          Except.error (d, [class_error_msg "SystemTime"]) := by
  rintro ⟨d, h⟩
  have key : ∀ now : SystemTime, SystemTime_from_row now [none] =
      Except.error (now, [class_error_msg "SystemTime"]) := by
    intro now
    simp [SystemTime_from_row, pg_type_expr_from_row, try_get]
  have h1 := (key (d + 1)).symm.trans (h (d + 1))
  simp at h1

/-- C4 amended: on a failing extraction, implementations from
`pg_type_implementation` substitute the type's default value, while the
standalone `pg_type_expr_implementation` implementations substitute the
hard-coded fallback expression of their instantiation site, which is not
in general the type's default: `SystemTime` substitutes the current
clock reading and `IpAddr` the loopback address. -/
theorem substituted_values_on_failure {V : Type} (class_name : String)
    (default_value fallback : V) (row : List (Option V))
    (row2 : List (Option SystemTime)) (row3 : List (Option IpAddr))
    (h : try_get row 0 = none) (h2 : try_get row2 0 = none)
    (h3 : try_get row3 0 = none) :
    pg_type_from_row class_name default_value row =
      Except.error (default_value, [class_error_msg class_name]) ∧
    pg_type_expr_from_row class_name fallback row =
      Except.error (fallback, [class_error_msg class_name]) ∧
    (∀ now : SystemTime, SystemTime_from_row now row2 =
      Except.error (now, [class_error_msg "SystemTime"])) ∧
    IpAddr_from_row row3 =
      Except.error (IpAddr.V4 127 0 0 1, [class_error_msg "IpAddr"]) := by
  refine ⟨?_, ?_, fun now => ?_, ?_⟩ <;>
    simp [pg_type_from_row, pg_type_expr_from_row, SystemTime_from_row,
      IpAddr_from_row, h, h2, h3]

/-- Witness for the amended C4 at one-cell rows whose cell fails to
decode. -/
theorem substituted_values_on_failure_witness :
    pg_type_from_row "i32" (0 : Nat) [none] =
      Except.error (0, [class_error_msg "i32"]) ∧
    pg_type_expr_from_row "i32" (9 : Nat) [none] =
      Except.error (9, [class_error_msg "i32"]) ∧
    (∀ now : SystemTime, SystemTime_from_row now [none] =
      Except.error (now, [class_error_msg "SystemTime"])) ∧
    IpAddr_from_row [none] =
      Except.error (IpAddr.V4 127 0 0 1, [class_error_msg "IpAddr"]) :=
  substituted_values_on_failure "i32" 0 9 [none] [none] [none]
    (by decide) (by decide) (by decide)

/-- C8 counterexample: the braced struct shape with an empty named-field
list has no fields, yet the derive macro accepts it and emits an
implementation, against the claim that every shape with no fields is
rejected; the emitted implementation converts any row to the empty
record with no diagnostics. -/
theorem parse_field_setters_accepts_empty_named :
    emits (parse_field_setters "Foo"
      (Data.Struct (Fields.Named ([] : List (Field Nat))))) = true ∧
    from_row "Foo" ([] : List (Field Nat)) [some 1] = Except.ok [] :=
  ⟨rfl, rfl⟩

/-- C8 amended: the derive macro rejects, at generation time, every
unnamed-field struct shape, the unit struct shape, and every enum or
union shape, emitting no implementation for them; a struct shape with a
(possibly empty) named-field list is accepted and receives the generated
implementation. -/
theorem parse_field_setters_shape_dispatch {V : Type} (class_name : String)
    (fields : List (Field V)) :
    parse_field_setters class_name (Data.Struct (Fields.Named fields)) =
      Except.ok (from_row class_name fields) ∧
    emits (parse_field_setters class_name (Data.Struct (Fields.Unnamed : Fields V))) = false ∧
    emits (parse_field_setters class_name (Data.Struct (Fields.Unit : Fields V))) = false ∧
    emits (parse_field_setters class_name (Data.Enum : Data V)) = false ∧
    emits (parse_field_setters class_name (Data.Union : Data V)) = false :=
  ⟨rfl, rfl, rfl, rfl, rfl⟩

end Pgde
